import Mathlib

/-!
Verification of `src/agents/qa_agent.py` (Ansible playbook QA agent).

The Python module is shallowly embedded below.  JSON values produced by
`json.loads` are modelled by `JValue` (numbers restricted to the integer
fragment); Python dicts built by the agent are modelled as ordered
association lists (`JObj`), matching insertion order of the source's dict
literals.  External collaborators — the `re` module's pattern compiler,
`json.loads`, the filesystem and the subprocess — enter as explicit
function or data parameters; everything the repository's own code does is
translated directly from the source.
-/

namespace QA

/-- JSON values (integer-number fragment), as returned by `json.loads`. -/
inductive JValue where
  | null
  | bool (b : Bool)
  | num (n : Int)
  | str (s : String)
  | arr (items : List JValue)
  | obj (fields : List (String × JValue))
deriving Repr

/-- A Python dict with string keys, in insertion order. -/
abbrev JObj := List (String × JValue)

/-- Python `d.get(key, default)` on a dict modelled as an ordered
association list (first binding wins; dicts built by the agent never
repeat a key). -/
def jget (fields : JObj) (key : String) (dflt : JValue) : JValue :=
  match fields with
  | [] => dflt
  | (k, v) :: rest => if k = key then v else jget rest key dflt

/-- Python `d[key]` presence test / lookup, same association-list model. -/
def jlookup (fields : JObj) (key : String) : Option JValue :=
  match fields with
  | [] => none
  | (k, v) :: rest => if k = key then some v else jlookup rest key

/-- Python `repr` of a string for the escape-free fragment: CPython quotes
with `'` unless the string contains `'` and no `"`. Escape sequences for
control characters and backslashes are outside the modelled fragment (no
theorem below evaluates `pyRepr` on such strings). -/
def pyQuote (s : String) : String :=
  if s.contains '\'' && !(s.contains '"') then "\"" ++ s ++ "\""
  else "'" ++ s ++ "'"

/-- Python `str()` / `repr()` of a JSON-decoded value, as used by the
f-string `f"ansible-lint:{rule_id}"` in `parse_ansible_lint_output`.
At top level Python `str` leaves strings unquoted; nested containers use
`repr`. -/
def pyRepr : JValue → String
  | JValue.null => "None"
  | JValue.bool true => "True"
  | JValue.bool false => "False"
  | JValue.num n => toString n
  | JValue.str s => pyQuote s
  | JValue.arr items =>
      "[" ++ String.intercalate ", " (items.attach.map fun x => pyRepr x.1) ++ "]"
  | JValue.obj fields =>
      "\x7b" ++ String.intercalate ", "
        (fields.attach.map fun p => pyQuote p.1.1 ++ ": " ++ pyRepr p.1.2) ++ "\x7d"
decreasing_by
  · have h := List.sizeOf_lt_of_mem x.2
    simp only [JValue.arr.sizeOf_spec]
    omega
  · have h := List.sizeOf_lt_of_mem p.2
    have h2 : sizeOf p.1.2 < sizeOf p.1 := by
      obtain ⟨a, b⟩ := p.1
      simp only [Prod.mk.sizeOf_spec]
      omega
    simp only [JValue.obj.sizeOf_spec]
    omega

/-- Python `str()` conversion used inside the f-string: a top-level string
is rendered without quotes, every other value by its `repr`. -/
def pyStr : JValue → String
  | JValue.str s => s
  | v => pyRepr v

/-- Python line-break characters recognised by `str.splitlines`. -/
def pyIsLineBreak (c : Char) : Bool :=
  c.val = 10 || c.val = 13 || c.val = 11 || c.val = 12 ||
  c.val = 28 || c.val = 29 || c.val = 30 || c.val = 133 ||
  c.val = 8232 || c.val = 8233

/-- Worker for `pySplitlines`: `acc` holds the current (reversed) line. -/
def splitlinesChars (acc : List Char) : List Char → List String
  | [] => if acc.isEmpty then [] else [String.mk acc.reverse]
  | '\r' :: '\n' :: rest2 => String.mk acc.reverse :: splitlinesChars [] rest2
  | c :: rest =>
    if pyIsLineBreak c then String.mk acc.reverse :: splitlinesChars [] rest
    else splitlinesChars (c :: acc) rest

/-- Python `str.splitlines()`: splits at line-break characters (`\r\n`
counted once), with no trailing empty line for a trailing break. -/
def pySplitlines (s : String) : List String := splitlinesChars [] s.data

/-- Python whitespace characters stripped by `str.strip()`. -/
def pyIsSpace (c : Char) : Bool :=
  c.val = 32 || (9 ≤ c.val && c.val ≤ 13) || (28 ≤ c.val && c.val ≤ 31) ||
  c.val = 133 || c.val = 160 || c.val = 5760 ||
  (8192 ≤ c.val && c.val ≤ 8202) || c.val = 8232 || c.val = 8233 ||
  c.val = 8239 || c.val = 8287 || c.val = 12288

/-- Python `str.strip()` (no argument): removes whitespace from both ends. -/
def pyStrip (s : String) : String :=
  String.mk (((s.data.dropWhile pyIsSpace).reverse.dropWhile pyIsSpace).reverse)

/-- Python `str.upper()` on the ASCII fragment (`Char.toUpper` maps only
`a`–`z`; the agent's severity strings are ASCII). -/
def pyUpper (s : String) : String := String.mk (s.data.map Char.toUpper)

/-- A custom QA rule, as validated by `load_custom_rules`: all four fields
are present. -/
structure Rule where
  id : String
  pattern : String
  description : String
  severity : String
deriving Repr, DecidableEq

/-!
## Pattern Scanner — `apply_custom_rules`

`re.search(rule["pattern"], line, re.IGNORECASE)` is modelled through a
compiler parameter `compile : String → Option (String → Bool)`: `none`
models `re.error` (an invalid pattern fails to compile, independently of
the line), and `some m` yields the case-insensitive match predicate on a
line.  In the source, `re.error` is caught and the rule is skipped
(`continue`), so an invalid rule contributes no finding on any line.
-/

/-- The finding dict appended by `apply_custom_rules` for a rule match,
keys in the source's insertion order. -/
def custom_finding (rule : Rule) (playbook_path : String) (line_num : Nat)
    (line : String) : JObj :=
  [("rule_id", JValue.str rule.id),
   ("severity", JValue.str rule.severity),
   ("description", JValue.str rule.description),
   ("file", JValue.str playbook_path),
   ("line", JValue.num (line_num : Int)),
   ("match", JValue.str (pyStrip line))]

/-- Inner loop of `apply_custom_rules`: one line, all rules in declaration
order; an uncompilable pattern (`re.error`) is skipped. -/
def lineFindings (compile : String → Option (String → Bool))
    (playbook_path : String) (line_num : Nat) (line : String) :
    List Rule → List JObj
  | [] => []
  | rule :: rest =>
    match compile rule.pattern with
    | none => lineFindings compile playbook_path line_num line rest
    | some m =>
      if m line then
        custom_finding rule playbook_path line_num line ::
          lineFindings compile playbook_path line_num line rest
      else lineFindings compile playbook_path line_num line rest

/-- Outer loop of `apply_custom_rules` over `enumerate(content.splitlines())`:
`i` is the 0-based enumeration index, the recorded line number is `i + 1`. -/
def scanFrom (compile : String → Option (String → Bool)) (rules : List Rule)
    (playbook_path : String) (i : Nat) : List String → List JObj
  | [] => []
  | line :: rest =>
    lineFindings compile playbook_path (i + 1) line rules ++
      scanFrom compile rules playbook_path (i + 1) rest

/-- `apply_custom_rules(content, rules, playbook_path)`: scans each line of
`content.splitlines()` against every rule, in order. -/
def apply_custom_rules (compile : String → Option (String → Bool))
    (content : String) (rules : List Rule) (playbook_path : String) :
    List JObj :=
  scanFrom compile rules playbook_path 0 (pySplitlines content)

/-- Instrumented inner loop: each finding is tagged with its
`(line number, rule declaration index)` pair; `j` is the index of the first
rule of the remaining list. -/
def lineFindingsIdx (compile : String → Option (String → Bool))
    (playbook_path : String) (line_num : Nat) (line : String) (j : Nat) :
    List Rule → List ((Nat × Nat) × JObj)
  | [] => []
  | rule :: rest =>
    match compile rule.pattern with
    | none => lineFindingsIdx compile playbook_path line_num line (j + 1) rest
    | some m =>
      if m line then
        ((line_num, j), custom_finding rule playbook_path line_num line) ::
          lineFindingsIdx compile playbook_path line_num line (j + 1) rest
      else lineFindingsIdx compile playbook_path line_num line (j + 1) rest

/-- Instrumented outer loop of the scan. -/
def scanFromIdx (compile : String → Option (String → Bool)) (rules : List Rule)
    (playbook_path : String) (i : Nat) : List String → List ((Nat × Nat) × JObj)
  | [] => []
  | line :: rest =>
    lineFindingsIdx compile playbook_path (i + 1) line 0 rules ++
      scanFromIdx compile rules playbook_path (i + 1) rest

/-- `apply_custom_rules` with each finding tagged by its
`(line number, rule declaration index)` key. -/
def apply_custom_rules_indexed (compile : String → Option (String → Bool))
    (content : String) (rules : List Rule) (playbook_path : String) :
    List ((Nat × Nat) × JObj) :=
  scanFromIdx compile rules playbook_path 0 (pySplitlines content)

/-- Lexicographic order on `(line number, rule index)` keys. -/
def scanOrder (a b : Nat × Nat) : Prop :=
  a.1 < b.1 ∨ (a.1 = b.1 ∧ a.2 < b.2)

/-!
## Linter Adapter — `parse_ansible_lint_output`

`json.loads` is an external stdlib collaborator, modelled by a parameter
`json_loads : String → Option JValue` (`none` = `json.JSONDecodeError`).
Inside the item loop, Python raises (`AttributeError`) when `.get` is
called on a non-dict, or `.upper()` on a non-string; every such exception
is caught by the function's blanket `except Exception` handler, which
stops the loop and returns the issues accumulated so far.  That per-item
fallibility is modelled with `Except Unit`.
-/

/-- The body of the item loop in `parse_ansible_lint_output`: builds one
issue dict (keys in the source's insertion order), or fails the way the
Python body raises — when the item is not a dict, its `"rule"` value is
not a dict, or the severity value is not a string. -/
def processLintItem (playbook_path : String) (item : JValue) :
    Except Unit JObj :=
  match item with
  | JValue.obj fields =>
    match jget fields "rule" (JValue.obj []) with
    | JValue.obj rule_info =>
      match jget rule_info "severity" (JValue.str "medium") with
      | JValue.str sev =>
        Except.ok
          [("rule_id", JValue.str
              ("ansible-lint:" ++ pyStr (jget rule_info "id" (JValue.str "UnknownRuleID")))),
           ("description", jget fields "message" (JValue.str "No description provided.")),
           ("severity", JValue.str (pyUpper sev)),
           ("file", jget fields "filename" (JValue.str playbook_path)),
           ("line", jget fields "linenumber" JValue.null)]
      | _ => Except.error ()
    | _ => Except.error ()
  | _ => Except.error ()

/-- The item loop of `parse_ansible_lint_output`: the first raising item
aborts the loop (the surrounding `except Exception` swallows it), so the
accumulated prefix of issues is returned. -/
def collectIssues (playbook_path : String) : List JValue → List JObj
  | [] => []
  | item :: rest =>
    match processLintItem playbook_path item with
    | Except.ok issue => issue :: collectIssues playbook_path rest
    | Except.error _ => []

/-- `parse_ansible_lint_output(json_string, playbook_path)`: empty or
absent output yields no issues; a `json.loads` failure yields no issues;
a parsed non-list yields no issues; a parsed list is processed item by
item. -/
def parse_ansible_lint_output (json_loads : String → Option JValue)
    (json_string : Option String) (playbook_path : String) : List JObj :=
  match json_string with
  | none => []
  | some s =>
    if s = "" then []
    else
      match json_loads s with
      | none => []
      | some (JValue.arr items) => collectIssues playbook_path items
      | some _ => []

/-!
## Report Assembler — `generate_report`

The report dict is built with keys in the source's insertion order; the
filesystem write is modelled by a `write_ok` parameter.  An `IOError`
during directory creation or writing is caught inside the function and
only logged: the caller always receives the same (unit) result — the
Python function returns `None` on every path and never re-raises.  The
second component records the file contents actually persisted, `none`
when the write failed.
-/

/-- The report dict assembled by `generate_report`, field order as in the
source: `report_timestamp`, `playbook_path`, `status`, `issues`. -/
def report_fields (playbook_path timestamp : String) (all_issues : List JObj) :
    List (String × JValue) :=
  [("report_timestamp", JValue.str timestamp),
   ("playbook_path", JValue.str playbook_path),
   ("status", JValue.str (if all_issues.isEmpty then "PASS" else "FAIL")),
   ("issues", JValue.arr (all_issues.map JValue.obj))]

/-- The report as the JSON value `json.dump` serialises. -/
def report_json (playbook_path timestamp : String) (all_issues : List JObj) :
    JValue :=
  JValue.obj (report_fields playbook_path timestamp all_issues)

/-- `generate_report(playbook_path, all_issues, output_report_path)`.
First component: what the caller observes (Python returns `None` and
catches `IOError`/`Exception` internally, so this is `()` on every path).
Second component: the report file's contents, `none` when the write
failed. -/
def generate_report (playbook_path : String) (all_issues : List JObj)
    (timestamp : String) (write_ok : Bool) : Unit × Option JValue :=
  ((), if write_ok then some (report_json playbook_path timestamp all_issues) else none)

/-- Extract the `issues` list of JSON objects back out of a parsed report
file, as a downstream consumer of the report JSON would. -/
def objsOf : List JValue → Option (List JObj)
  | [] => some []
  | JValue.obj o :: rest => (objsOf rest).map (o :: ·)
  | _ => none

/-- Parse the `issues` sequence back from a report JSON value. -/
def parse_report_issues (v : JValue) : Option (List JObj) :=
  match v with
  | JValue.obj fields =>
    match jlookup fields "issues" with
    | some (JValue.arr xs) => objsOf xs
    | _ => none
  | _ => none

/-!
## Run Controller — the `__main__` block

The controller is modelled from the point after argument parsing.  File
existence, rules loading, playbook reading, the subprocess result and the
report write are external effects, passed in as parameters; everything
else is the source's own control flow.  `load_custom_rules` and
`read_playbook_content` call `sys.exit(1)` on failure, modelled by the
`none` branches.  The line `sys.exit(0 if not all_issues else 1)` in the
source is commented out, so a run that reaches the end of the `try` block
terminates with exit code 0 regardless of the issues found or of the
linter's exit status (including the `-1` command-not-found and `-2`
spawn-failure sentinels of `run_ansible_lint`, which are only logged).
-/

/-- Outcome of one run of the agent process. -/
structure RunResult where
  exitCode : Nat
  reportWritten : Option JValue
deriving Repr

/-- The `__main__` control flow of `qa_agent.py` after argument parsing.
`lint_result` is `run_ansible_lint`'s `(stdout, stderr, returncode)`
triple; `rules_loaded`/`content_read` are `none` when the corresponding
helper would `sys.exit(1)`. -/
def qa_main (compile : String → Option (String → Bool))
    (json_loads : String → Option JValue)
    (playbook_exists : Bool) (lint_result : Option String × String × Int)
    (rules_loaded : Option (List Rule)) (content_read : Option String)
    (playbook_file : String) (timestamp : String) (write_ok : Bool) :
    RunResult :=
  if playbook_exists then
    let ansible_lint_issues :=
      parse_ansible_lint_output json_loads lint_result.1 playbook_file
    match rules_loaded with
    | none => ⟨1, none⟩
    | some custom_rules =>
      match content_read with
      | none => ⟨1, none⟩
      | some playbook_content =>
        let custom_issues :=
          apply_custom_rules compile playbook_content custom_rules playbook_file
        let all_issues := ansible_lint_issues ++ custom_issues
        ⟨0, (generate_report playbook_file all_issues timestamp write_ok).2⟩
  else ⟨1, none⟩

/-!
## Concrete instances used by witnesses and counterexamples
-/

/-- A pattern compiler under which every pattern is valid and matches
every line. -/
def compileAll : String → Option (String → Bool) := fun _ => some (fun _ => true)

/-- A pattern compiler that rejects the pattern `"["` (an invalid regular
expression for Python's `re`) and accepts, matching everything, all
others. -/
def compileW : String → Option (String → Bool) :=
  fun pat => if pat = "[" then none else some (fun _ => true)

/-- A `json.loads` model that fails on every input (non-JSON output). -/
def loadsNone : String → Option JValue := fun _ => none

/-- A `json.loads` model returning a non-list top-level value. -/
def loadsObj : String → Option JValue := fun _ => some (JValue.obj [])

/-- A `json.loads` model returning a list whose second element is not an
object. -/
def loadsMixed : String → Option JValue :=
  fun _ => some (JValue.arr [JValue.obj [], JValue.num 42])

/-- A `json.loads` model returning a list with a well-formed first item, a
non-object second item, and a further item after the bad one. -/
def loadsPre : String → Option JValue :=
  fun _ => some (JValue.arr [JValue.obj [], JValue.num 7, JValue.obj []])

/-- A valid custom rule. -/
def ruleA : Rule := ⟨"R1", "p1", "d1", "HIGH"⟩

/-- A rule whose pattern `"["` is not a valid regular expression. -/
def ruleBad : Rule := ⟨"B", "[", "db", "LOW"⟩

/-- The issue `parse_ansible_lint_output` builds from the empty JSON
object `\x7b\x7d`: every field takes its default. -/
def defaultIssue (playbook_path : String) : JObj :=
  [("rule_id", JValue.str "ansible-lint:UnknownRuleID"),
   ("description", JValue.str "No description provided."),
   ("severity", JValue.str "MEDIUM"),
   ("file", JValue.str playbook_path),
   ("line", JValue.null)]

/-!
## Theorems
-/

/-- Parsing back a mapped list of objects recovers the original objects. -/
theorem objsOf_map_obj (l : List JObj) : objsOf (l.map JValue.obj) = some l := by
  induction l with
  | nil => rfl
  | cons x xs ih => simp [objsOf, ih]

/-- C6: the assembled report's `status` field is `FAIL` iff the issue
sequence is non-empty and `PASS` iff it is empty; the status is derived
solely from the issues' emptiness. -/
theorem C6_status (playbook_path timestamp : String) (issues : List JObj) :
    (jlookup (report_fields playbook_path timestamp issues) "status"
        = some (JValue.str "FAIL") ↔ issues ≠ [])
    ∧ (jlookup (report_fields playbook_path timestamp issues) "status"
        = some (JValue.str "PASS") ↔ issues = []) := by
  cases issues <;> simp [report_fields, jlookup]

/-- C9: the report assembled from an issue sequence and serialised as JSON
yields, when parsed back, an issues sequence identical field-for-field and
in the same order. -/
theorem C9_roundtrip (playbook_path timestamp : String) (issues : List JObj) :
    parse_report_issues (report_json playbook_path timestamp issues) = some issues := by
  have h : jlookup (report_fields playbook_path timestamp issues) "issues"
      = some (JValue.arr (issues.map JValue.obj)) := rfl
  simp [parse_report_issues, report_json, h, objsOf_map_obj]

/-- C8: the issue sequence assembled into the report is exactly the
linter adapter's findings followed by the pattern scanner's findings, each
source's internal order preserved (`all_issues = ansible_lint_issues +
custom_issues` in `__main__`). -/
theorem C8_concat (compile : String → Option (String → Bool))
    (json_loads : String → Option JValue) (lint_stdout : Option String)
    (lint_stderr : String) (lint_code : Int) (rules : List Rule)
    (content playbook_file timestamp : String) :
    (qa_main compile json_loads true (lint_stdout, lint_stderr, lint_code)
        (some rules) (some content) playbook_file timestamp true).reportWritten
      = some (report_json playbook_file timestamp
          (parse_ansible_lint_output json_loads lint_stdout playbook_file
            ++ apply_custom_rules compile content rules playbook_file)) := rfl

/-- C2 counterexample: a run in which the pattern scan finds an issue
(and a run in which the linter invocation failed with the `-1`
command-not-found sentinel) still terminates with exit code 0 — the claim
says such runs exit with code 1.  The written report indeed carries the
non-empty issue list. -/
theorem C2_counterexample :
    apply_custom_rules compileAll "x" [ruleA] "pb" = [custom_finding ruleA "pb" 1 "x"]
    ∧ custom_finding ruleA "pb" 1 "x" :: ([] : List JObj) ≠ []
    ∧ (qa_main compileAll loadsNone true (some "", "", 0) (some [ruleA]) (some "x")
        "pb" "ts" true).exitCode = 0
    ∧ (qa_main compileAll loadsNone true (some "", "", 0) (some [ruleA]) (some "x")
        "pb" "ts" true).reportWritten
        = some (report_json "pb" "ts" [custom_finding ruleA "pb" 1 "x"])
    ∧ (qa_main compileAll loadsNone true (none, "err", -1) (some [ruleA]) (some "x")
        "pb" "ts" true).exitCode = 0 :=
  ⟨rfl, by simp, rfl, rfl, rfl⟩

/-- C2 amended: the process exit code is 0 whenever the playbook exists,
the rules file loads and the playbook content is read — regardless of how
many issues were found and of the linter invocation's outcome (including
its failure sentinels); it is 1 when the playbook is missing, the rules
file fails to load, or the content cannot be read. -/
theorem C2_exit_code (compile : String → Option (String → Bool))
    (json_loads : String → Option JValue)
    (lint_result lint_result2 : Option String × String × Int)
    (rules : List Rule) (content : String)
    (rules_loaded : Option (List Rule)) (content_read : Option String)
    (playbook_file timestamp : String) (w w2 w3 w4 : Bool) :
    (qa_main compile json_loads true lint_result (some rules) (some content)
        playbook_file timestamp w).exitCode = 0
    ∧ (qa_main compile json_loads false lint_result2 rules_loaded content_read
        playbook_file timestamp w2).exitCode = 1
    ∧ (qa_main compile json_loads true lint_result2 none content_read
        playbook_file timestamp w3).exitCode = 1
    ∧ (qa_main compile json_loads true lint_result2 rules_loaded none
        playbook_file timestamp w4).exitCode = 1 := by
  refine ⟨rfl, rfl, rfl, ?_⟩
  cases rules_loaded <;> rfl

/-- C3 counterexample: when the report write fails, `generate_report`
returns to its caller exactly what it returns on success (Python returns
`None` on both paths — the `IOError` is caught and only logged), and the
run still terminates with exit code 0 even though no report was
persisted. -/
theorem C3_counterexample :
    (generate_report "pb" [] "ts" false).1 = (generate_report "pb" [] "ts" true).1
    ∧ (generate_report "pb" [] "ts" false).2 = none
    ∧ (qa_main compileAll loadsNone true (some "", "", 0) (some []) (some "")
        "pb" "ts" false).exitCode = 0
    ∧ (qa_main compileAll loadsNone true (some "", "", 0) (some []) (some "")
        "pb" "ts" false).reportWritten = none :=
  ⟨rfl, rfl, rfl, rfl⟩

/-- C3 amended: a failure to create the output directory or write the
report file is caught inside `generate_report` and only logged — the
caller receives the same result as on success, no `IOError` reaches it,
and the run still ends with exit code 0 (the success signal) although the
report was not persisted. -/
theorem C3_write_failure_absorbed (playbook_path timestamp : String)
    (all_issues : List JObj) (compile : String → Option (String → Bool))
    (json_loads : String → Option JValue)
    (lint_result : Option String × String × Int) (rules : List Rule)
    (content playbook_file : String) :
    (generate_report playbook_path all_issues timestamp false).1
        = (generate_report playbook_path all_issues timestamp true).1
    ∧ (generate_report playbook_path all_issues timestamp false).2 = none
    ∧ (qa_main compile json_loads true lint_result (some rules) (some content)
        playbook_file timestamp false).exitCode = 0
    ∧ (qa_main compile json_loads true lint_result (some rules) (some content)
        playbook_file timestamp false).reportWritten = none :=
  ⟨rfl, rfl, rfl, rfl⟩

/-- C4 counterexample: an output that parses as a list which is *not* a
list of issue objects (its second element is the number 42) does not yield
the empty sequence — the well-formed first element produces an issue.  The
claim requires an empty finding sequence for output "that parses but does
not match the expected shape". -/
theorem C4_counterexample :
    loadsMixed "out" = some (JValue.arr [JValue.obj [], JValue.num 42])
    ∧ (∀ fields, JValue.num 42 ≠ JValue.obj fields)
    ∧ parse_ansible_lint_output loadsMixed (some "out") "pb" = [defaultIssue "pb"]
    ∧ parse_ansible_lint_output loadsMixed (some "out") "pb" ≠ [] := by
  refine ⟨rfl, ?_, rfl, ?_⟩
  · intro _ h
    exact JValue.noConfusion h
  · have h : parse_ansible_lint_output loadsMixed (some "out") "pb"
        = [defaultIssue "pb"] := rfl
    rw [h]
    simp

/-- C4 amended: normalization returns the empty finding sequence (and,
being a total function, raises nothing) when the raw output is absent or
empty, when `json.loads` fails on it, or when it parses to a value that is
not a list; a parsed *list* is instead processed element-wise and may
yield a non-empty result even when it is not a list of issue objects. -/
theorem C4_normalize_tolerant (json_loads : String → Option JValue)
    (s playbook_path : String) :
    parse_ansible_lint_output json_loads none playbook_path = []
    ∧ parse_ansible_lint_output json_loads (some "") playbook_path = []
    ∧ (json_loads s = none → parse_ansible_lint_output json_loads (some s) playbook_path = [])
    ∧ (∀ v, json_loads s = some v → (∀ items, v ≠ JValue.arr items) →
        parse_ansible_lint_output json_loads (some s) playbook_path = []) := by
  refine ⟨rfl, rfl, ?_, ?_⟩
  · intro h
    by_cases hs : s = ""
    · simp [parse_ansible_lint_output, hs]
    · simp [parse_ansible_lint_output, hs, h]
  · intro v hv hne
    by_cases hs : s = ""
    · simp [parse_ansible_lint_output, hs]
    · cases v with
      | arr items => exact absurd rfl (hne items)
      | null => simp [parse_ansible_lint_output, hs, hv]
      | bool b => simp [parse_ansible_lint_output, hs, hv]
      | num n => simp [parse_ansible_lint_output, hs, hv]
      | str t => simp [parse_ansible_lint_output, hs, hv]
      | obj fields => simp [parse_ansible_lint_output, hs, hv]

/-- Witness for the amended C4, at a failing loader and at a loader
returning a non-list value. -/
theorem C4_witness :
    parse_ansible_lint_output loadsNone (some "oops") "pb" = []
    ∧ parse_ansible_lint_output loadsObj (some "x") "pb" = [] :=
  ⟨(C4_normalize_tolerant loadsNone "oops" "pb").2.2.1 rfl,
   (C4_normalize_tolerant loadsObj "x" "pb").2.2.2 (JValue.obj []) rfl
     (fun _ h => nomatch h)⟩

/-- The item loop stops at the first raising item: the issues accumulated
from the well-formed items before it are returned, everything at and after
the bad item is dropped. -/
theorem collectIssues_append_bad (playbook_path : String) (pre : List JValue)
    (bad : JValue) (rest : List JValue) (g : JValue → JObj)
    (hgood : ∀ x ∈ pre, processLintItem playbook_path x = Except.ok (g x))
    (hbad : processLintItem playbook_path bad = Except.error ()) :
    collectIssues playbook_path (pre ++ bad :: rest) = pre.map g := by
  induction pre with
  | nil => simp [collectIssues, hbad]
  | cons x xs ih =>
      simp only [List.cons_append, collectIssues, hgood x (List.mem_cons_self x xs),
        List.map_cons]
      exact congrArg (g x :: ·) (ih (fun y hy => hgood y (List.mem_cons_of_mem _ hy)))

/-- C10: on output parsing to a JSON list, normalization is total (never
raises), and if some element is not an object — so that attribute access
on it raises in Python — the result is exactly the issues built from the
elements preceding the first such element: a partial prefix, not empty,
not the full list, not an error. -/
theorem C10_prefix_of_results (json_loads : String → Option JValue)
    (s playbook_path : String) (pre : List JValue) (bad : JValue)
    (rest : List JValue) (g : JValue → JObj)
    (hs : s ≠ "")
    (hload : json_loads s = some (JValue.arr (pre ++ bad :: rest)))
    (hgood : ∀ x ∈ pre, processLintItem playbook_path x = Except.ok (g x))
    (hbad : ∀ fields, bad ≠ JValue.obj fields) :
    parse_ansible_lint_output json_loads (some s) playbook_path = pre.map g := by
  have hbad' : processLintItem playbook_path bad = Except.error () := by
    cases bad with
    | obj fields => exact absurd rfl (hbad fields)
    | null => rfl
    | bool b => rfl
    | num n => rfl
    | str t => rfl
    | arr items => rfl
  simp only [parse_ansible_lint_output, if_neg hs, hload]
  exact collectIssues_append_bad playbook_path pre bad rest g hgood hbad'

/-- Witness for C10: the list `[\x7b\x7d, 7, \x7b\x7d]` yields exactly the
issue built from the first element — the element after the bad one is
dropped. -/
theorem C10_witness :
    parse_ansible_lint_output loadsPre (some "L") "pb" = [defaultIssue "pb"] :=
  C10_prefix_of_results loadsPre "L" "pb" [JValue.obj []] (JValue.num 7)
    [JValue.obj []] (fun _ => defaultIssue "pb")
    (by simp)
    rfl
    (by intro x hx
        rw [List.mem_singleton] at hx
        subst hx
        rfl)
    (fun _ h => nomatch h)

/-- C7: field mapping of a recognized linter issue object.  The rule id is
namespaced with the `ansible-lint:` marker; the severity (defaulting
to `"medium"` when absent — visible in the `jget` default) is uppercased;
the description defaults to the fixed placeholder `"No description
provided."`; the file defaults to the scanned playbook path; the line is
passed through from `linenumber` and is `null` (never fabricated) when
absent. -/
theorem C7_field_mapping (playbook_path : String)
    (fields rule_info : List (String × JValue)) (sev : String)
    (hrule : jget fields "rule" (JValue.obj []) = JValue.obj rule_info)
    (hsev : jget rule_info "severity" (JValue.str "medium") = JValue.str sev) :
    processLintItem playbook_path (JValue.obj fields) = Except.ok
      [("rule_id", JValue.str
          ("ansible-lint:" ++ pyStr (jget rule_info "id" (JValue.str "UnknownRuleID")))),
       ("description", jget fields "message" (JValue.str "No description provided.")),
       ("severity", JValue.str (pyUpper sev)),
       ("file", jget fields "filename" (JValue.str playbook_path)),
       ("line", jget fields "linenumber" JValue.null)] := by
  simp only [processLintItem, hrule, hsev]

/-- Witness for C7 on a concrete recognized issue object. -/
theorem C7_witness :
    processLintItem "pb" (JValue.obj
      [("rule", JValue.obj [("id", JValue.str "yaml"), ("severity", JValue.str "high")]),
       ("message", JValue.str "m"), ("linenumber", JValue.num 3)])
    = Except.ok
      [("rule_id", JValue.str "ansible-lint:yaml"),
       ("description", JValue.str "m"),
       ("severity", JValue.str "HIGH"),
       ("file", JValue.str "pb"),
       ("line", JValue.num 3)] :=
  C7_field_mapping "pb"
    [("rule", JValue.obj [("id", JValue.str "yaml"), ("severity", JValue.str "high")]),
     ("message", JValue.str "m"), ("linenumber", JValue.num 3)]
    [("id", JValue.str "yaml"), ("severity", JValue.str "high")] "high" rfl rfl

/-- A rule whose pattern fails to compile contributes nothing to a single
line's findings; the remaining rules behave as if it were absent. -/
theorem lineFindings_skip_invalid (compile : String → Option (String → Bool))
    (playbook_path : String) (bad : Rule) (h : compile bad.pattern = none)
    (line_num : Nat) (line : String) :
    ∀ pre post : List Rule,
      lineFindings compile playbook_path line_num line (pre ++ bad :: post)
        = lineFindings compile playbook_path line_num line (pre ++ post) := by
  intro pre post
  induction pre with
  | nil => simp [lineFindings, h]
  | cons r rs ih =>
      cases hc : compile r.pattern with
      | none =>
          simp only [List.cons_append, lineFindings, hc]
          exact ih
      | some m =>
          simp only [List.cons_append, lineFindings, hc]
          by_cases hm : m line <;> simp [hm, ih]

/-- Line-by-line version of C5 over the outer scan loop. -/
theorem scanFrom_skip_invalid (compile : String → Option (String → Bool))
    (playbook_path : String) (bad : Rule) (h : compile bad.pattern = none)
    (pre post : List Rule) :
    ∀ (lines : List String) (i : Nat),
      scanFrom compile (pre ++ bad :: post) playbook_path i lines
        = scanFrom compile (pre ++ post) playbook_path i lines := by
  intro lines
  induction lines with
  | nil => intro i; rfl
  | cons line rest ih =>
      intro i
      simp only [scanFrom,
        lineFindings_skip_invalid compile playbook_path bad h (i + 1) line pre post,
        ih]

/-- C5: a rule whose pattern is not a valid regular expression is skipped
(the scan, a total function, raises nothing): it contributes no findings
on any line, and every other rule is still evaluated against every line,
producing exactly the findings of the rule set without the invalid
rule. -/
theorem C5_invalid_rule_skipped (compile : String → Option (String → Bool))
    (content playbook_path : String) (pre post : List Rule) (bad : Rule)
    (h : compile bad.pattern = none) :
    apply_custom_rules compile content (pre ++ bad :: post) playbook_path
      = apply_custom_rules compile content (pre ++ post) playbook_path :=
  scanFrom_skip_invalid compile playbook_path bad h pre post (pySplitlines content) 0

/-- Witness for C5: with the invalid pattern `"["` the two-rule scan
equals the scan of the single valid rule. -/
theorem C5_witness :
    apply_custom_rules compileW "x" [ruleA, ruleBad] "pb"
      = apply_custom_rules compileW "x" [ruleA] "pb" :=
  C5_invalid_rule_skipped compileW "x" "pb" [ruleA] [] ruleBad rfl

/-- Erasing the `(line, rule index)` tags from the instrumented inner loop
recovers the inner loop of `apply_custom_rules`. -/
theorem lineFindingsIdx_map_snd (compile : String → Option (String → Bool))
    (playbook_path : String) (line_num : Nat) (line : String)
    (rules : List Rule) :
    ∀ j, (lineFindingsIdx compile playbook_path line_num line j rules).map Prod.snd
      = lineFindings compile playbook_path line_num line rules := by
  induction rules with
  | nil => intro j; rfl
  | cons rule rest ih =>
      intro j
      cases hc : compile rule.pattern with
      | none => simp only [lineFindingsIdx, lineFindings, hc, ih]
      | some m =>
          simp only [lineFindingsIdx, lineFindings, hc]
          by_cases hm : m line <;> simp [hm, ih]

/-- Every tagged finding of the instrumented inner loop carries the line
number of the scanned line, a rule index pointing at its generating rule
(relative to the running index `j`), and the finding that rule produces. -/
theorem lineFindingsIdx_mem (compile : String → Option (String → Bool))
    (playbook_path : String) (line_num : Nat) (line : String)
    (rules : List Rule) :
    ∀ j, ∀ e ∈ lineFindingsIdx compile playbook_path line_num line j rules,
      e.1.1 = line_num ∧ j ≤ e.1.2 ∧
        ∃ rule, rules[e.1.2 - j]? = some rule
          ∧ e.2 = custom_finding rule playbook_path line_num line := by
  induction rules with
  | nil => intro j e he; simp [lineFindingsIdx] at he
  | cons rule rest ih =>
      intro j e he
      have step : ∀ he' : e ∈ lineFindingsIdx compile playbook_path line_num line (j + 1) rest,
          e.1.1 = line_num ∧ j ≤ e.1.2 ∧
            ∃ r, (rule :: rest)[e.1.2 - j]? = some r
              ∧ e.2 = custom_finding r playbook_path line_num line := by
        intro he'
        obtain ⟨h1, h2, r, hr, hf⟩ := ih (j + 1) e he'
        refine ⟨h1, by omega, r, ?_, hf⟩
        rw [show e.1.2 - j = (e.1.2 - (j + 1)) + 1 by omega, List.getElem?_cons_succ]
        exact hr
      cases hc : compile rule.pattern with
      | none =>
          simp only [lineFindingsIdx, hc] at he
          exact step he
      | some m =>
          simp only [lineFindingsIdx, hc] at he
          by_cases hm : m line
          · rw [if_pos hm] at he
            rcases List.mem_cons.mp he with heq | he'
            · subst heq
              exact ⟨rfl, Nat.le_refl j, rule, by simp, rfl⟩
            · exact step he'
          · rw [if_neg hm] at he
            exact step he

/-- Within one line, the instrumented findings appear in strictly
increasing rule-declaration order, all tagged with that line's number. -/
theorem lineFindingsIdx_pairwise (compile : String → Option (String → Bool))
    (playbook_path : String) (line_num : Nat) (line : String)
    (rules : List Rule) :
    ∀ j, (lineFindingsIdx compile playbook_path line_num line j rules).Pairwise
      (fun a b => a.1.1 = b.1.1 ∧ a.1.2 < b.1.2) := by
  induction rules with
  | nil => intro j; simp [lineFindingsIdx]
  | cons rule rest ih =>
      intro j
      cases hc : compile rule.pattern with
      | none =>
          simp only [lineFindingsIdx, hc]
          exact ih (j + 1)
      | some m =>
          simp only [lineFindingsIdx, hc]
          by_cases hm : m line
          · rw [if_pos hm]
            refine List.Pairwise.cons ?_ (ih (j + 1))
            intro b hb
            obtain ⟨h1, h2, -⟩ :=
              lineFindingsIdx_mem compile playbook_path line_num line rest (j + 1) b hb
            refine ⟨h1.symm, ?_⟩
            show j < b.1.2
            omega
          · rw [if_neg hm]
            exact ih (j + 1)

/-- Every tagged finding of the instrumented outer scan has a line number
past the enumeration start, a rule index pointing into the rule list at
its generating rule, and the finding that rule produces on some line. -/
theorem scanFromIdx_mem (compile : String → Option (String → Bool))
    (rules : List Rule) (playbook_path : String) :
    ∀ (lines : List String) (i : Nat),
      ∀ e ∈ scanFromIdx compile rules playbook_path i lines,
        i + 1 ≤ e.1.1 ∧
          ∃ rule line, rules[e.1.2]? = some rule
            ∧ e.2 = custom_finding rule playbook_path e.1.1 line := by
  intro lines
  induction lines with
  | nil => intro i e he; simp [scanFromIdx] at he
  | cons line rest ih =>
      intro i e he
      simp only [scanFromIdx] at he
      rcases List.mem_append.mp he with h | h
      · obtain ⟨h1, h2, rule, hr, hf⟩ :=
          lineFindingsIdx_mem compile playbook_path (i + 1) line rules 0 e h
        refine ⟨Nat.le_of_eq h1.symm, rule, line, ?_, ?_⟩
        · simpa using hr
        · rw [h1]
          exact hf
      · obtain ⟨h1, hrest⟩ := ih (i + 1) e h
        exact ⟨by omega, hrest⟩

/-- The instrumented scan's `(line, rule index)` tags are strictly
increasing in the lexicographic scan order. -/
theorem scanFromIdx_pairwise (compile : String → Option (String → Bool))
    (rules : List Rule) (playbook_path : String) :
    ∀ (lines : List String) (i : Nat),
      (scanFromIdx compile rules playbook_path i lines).Pairwise
        (fun a b => scanOrder a.1 b.1) := by
  intro lines
  induction lines with
  | nil => intro i; simp [scanFromIdx]
  | cons line rest ih =>
      intro i
      simp only [scanFromIdx]
      rw [List.pairwise_append]
      refine ⟨?_, ih (i + 1), ?_⟩
      · refine (lineFindingsIdx_pairwise compile playbook_path (i + 1) line rules 0).imp ?_
        intro a b hab
        exact Or.inr ⟨hab.1, hab.2⟩
      · intro a ha b hb
        have ha' :=
          (lineFindingsIdx_mem compile playbook_path (i + 1) line rules 0 a ha).1
        have hb' := (scanFromIdx_mem compile rules playbook_path rest (i + 1) b hb).1
        exact Or.inl (by omega)

/-- Erasing the tags from the instrumented outer scan recovers
`apply_custom_rules`'s outer loop. -/
theorem scanFromIdx_map_snd (compile : String → Option (String → Bool))
    (rules : List Rule) (playbook_path : String) :
    ∀ (lines : List String) (i : Nat),
      (scanFromIdx compile rules playbook_path i lines).map Prod.snd
        = scanFrom compile rules playbook_path i lines := by
  intro lines
  induction lines with
  | nil => intro i; rfl
  | cons line rest ih =>
      intro i
      simp only [scanFromIdx, scanFrom, List.map_append, ih,
        lineFindingsIdx_map_snd]

/-- C1: the pattern scan's finding sequence is the tag-erasure of the
instrumented scan, whose `(line number, rule declaration index)` tags are
strictly increasing in lexicographic order — line number ascending, and
among equal line numbers, rule declaration order ascending.  Each tag is
genuine: the finding records exactly the tag's line number in its `line`
field and is the finding generated by the rule sitting at the tag's index
in the input rule sequence. -/
theorem C1_scan_order (compile : String → Option (String → Bool))
    (content : String) (rules : List Rule) (playbook_path : String) :
    apply_custom_rules compile content rules playbook_path
      = (apply_custom_rules_indexed compile content rules playbook_path).map Prod.snd
    ∧ ((apply_custom_rules_indexed compile content rules playbook_path).map
        Prod.fst).Pairwise scanOrder
    ∧ ∀ e ∈ apply_custom_rules_indexed compile content rules playbook_path,
        jlookup e.2 "line" = some (JValue.num (e.1.1 : Int))
        ∧ ∃ rule line, rules[e.1.2]? = some rule
            ∧ e.2 = custom_finding rule playbook_path e.1.1 line := by
  refine ⟨(scanFromIdx_map_snd compile rules playbook_path
      (pySplitlines content) 0).symm, ?_, ?_⟩
  · rw [List.pairwise_map]
    exact scanFromIdx_pairwise compile rules playbook_path (pySplitlines content) 0
  · intro e he
    obtain ⟨-, rule, line, hr, hf⟩ :=
      scanFromIdx_mem compile rules playbook_path (pySplitlines content) 0 e he
    refine ⟨?_, rule, line, hr, hf⟩
    rw [hf]
    rfl

/-- Witness for C1: on a concrete two-line playbook with two always-matching
rules, the scan tags evaluate to `[(1,0), (1,1), (2,0), (2,1)]` — line
number ascending, rule declaration order within a line — and the theorem's
ordering conclusion applies to them. -/
theorem C1_witness :
    ((apply_custom_rules_indexed compileAll "a\nb" [ruleA, ruleA] "pb").map
        Prod.fst) = [(1, 0), (1, 1), (2, 0), (2, 1)]
    ∧ ((apply_custom_rules_indexed compileAll "a\nb" [ruleA, ruleA] "pb").map
        Prod.fst).Pairwise scanOrder :=
  ⟨rfl, (C1_scan_order compileAll "a\nb" [ruleA, ruleA] "pb").2.1⟩

/-- Witness for the amended C2 at concrete inputs. -/
theorem C2_witness :
    (qa_main compileAll loadsNone true (some "", "", 0) (some [ruleA]) (some "x")
        "pb" "ts" true).exitCode = 0
    ∧ (qa_main compileAll loadsNone false (some "", "", 0) none none
        "pb" "ts" true).exitCode = 1 :=
  ⟨(C2_exit_code compileAll loadsNone (some "", "", 0) (some "", "", 0) [ruleA]
      "x" none none "pb" "ts" true true true true).1,
   (C2_exit_code compileAll loadsNone (some "", "", 0) (some "", "", 0) [ruleA]
      "x" none none "pb" "ts" true true true true).2.1⟩

/-- Witness for the amended C3 at concrete inputs. -/
theorem C3_witness :
    (generate_report "pb" [defaultIssue "pb"] "ts" false).2 = none
    ∧ (qa_main compileAll loadsNone true (some "", "", 0) (some [ruleA]) (some "x")
        "pb" "ts" false).exitCode = 0 :=
  ⟨(C3_write_failure_absorbed "pb" "ts" [defaultIssue "pb"] compileAll loadsNone
      (some "", "", 0) [ruleA] "x" "pb").2.1,
   (C3_write_failure_absorbed "pb" "ts" [defaultIssue "pb"] compileAll loadsNone
      (some "", "", 0) [ruleA] "x" "pb").2.2.1⟩

/-- Witness for C6 at an empty and at a non-empty issue sequence. -/
theorem C6_witness :
    jlookup (report_fields "pb" "ts" []) "status" = some (JValue.str "PASS")
    ∧ jlookup (report_fields "pb" "ts" [defaultIssue "pb"]) "status"
        = some (JValue.str "FAIL") :=
  ⟨(C6_status "pb" "ts" []).2.mpr rfl,
   (C6_status "pb" "ts" [defaultIssue "pb"]).1.mpr (by simp)⟩

end QA
